import Mathlib

/-!
Shallow embedding of the streaming-session core of the repository
(`faster_whisper/line_packet.py` and `faster_whisper/whisper_online.py`).

Modelling conventions:
* Python `str` values are modelled as `List Char`; UTF-8 encoding is modelled
  at the Unicode-scalar level (one list element per character), which is exact
  for the properties below, all of which are stated modulo UTF-8 lossy
  substitution.
* Python floats (timestamps, chunk durations) are modelled as `ℚ`: the code
  only multiplies them by constants, takes `max`, and compares them.
* Raw PCM byte buffers are modelled by the sample lists they decode to
  (`List ℤ`), since the code only ever measures their length and
  concatenates them.
* Socket effects are modelled by explicit inputs and outputs: the packets a
  send produces, the list of packets a receive consumes, and so on.
-/

namespace WhisperStreaming

/-- NUL character, Python's `'\0'`. -/
def nulChar : Char := Char.ofNat 0

/-- Protocol constant from `line_packet.py` line 21: `PACKET_SIZE = 65536`. -/
def PACKET_SIZE : ℕ := 65536

/-- Constant from `line_packet.py` line 22: `SAMPLING_RATE = 16000`. -/
def SAMPLING_RATE : ℕ := 16000

/-- Characters at which Python's `str.splitlines` breaks a line: `\n`, `\r`,
`\v`, `\f`, `\x1c`, `\x1d`, `\x1e`, `\x85`, ` `, ` `.  NUL is not
among them. -/
def isLineBoundary (c : Char) : Bool :=
  c == '\n' || c == '\r' || c == Char.ofNat 0x0b || c == Char.ofNat 0x0c ||
  c == Char.ofNat 0x1c || c == Char.ofNat 0x1d || c == Char.ofNat 0x1e ||
  c == Char.ofNat 0x85 || c == Char.ofNat 0x2028 || c == Char.ofNat 0x2029

/-- First element of `text.splitlines()` (empty when the list is empty), which
equals the longest boundary-free front of the string. -/
def firstLine (text : List Char) : List Char :=
  text.takeWhile (fun c => !(isLineBoundary c))

/-- The byte string `data` built by `send_one_line` (lines 43-48): the first
line of `text`, a newline, and a trailing NUL if `pad_zeros` is set.  Note
that line 43 of the source, `text.replace('\0', '\n')`, discards its result
(Python strings are immutable and the returned value is not assigned), so it
has no effect and NUL is not treated as a line terminator here, contrary to
the function's own docstring. -/
def send_data (pad_zeros : Bool) (text : List Char) : List Char :=
  firstLine text ++ ['\n'] ++ (if pad_zeros then [nulChar] else [])

/-- Fuelled packet-splitting loop of `send_one_line` (lines 49-56).  One
recursion step per `offset` iteration: a full slice of `psize` bytes when at
least `psize` bytes remain, otherwise the remainder, zero-padded to `psize`
only when `pad_zeros` is set.  The fuel is the data length, which bounds the
number of iterations whenever `psize ≥ 1` (Python raises on a zero range
step, so `psize = 0` never occurs with the protocol constant). -/
def packetizeFuel (pad_zeros : Bool) (psize : ℕ) : ℕ → List Char → List (List Char)
  | 0, _ => []
  | fuel + 1, data =>
      if data = [] then []
      else if data.length < psize then
        [data ++ (if pad_zeros then List.replicate (psize - data.length) nulChar else [])]
      else
        data.take psize :: packetizeFuel pad_zeros psize fuel (data.drop psize)

/-- Packet list produced by the loop of `send_one_line` for a given byte
string. -/
def packetize (pad_zeros : Bool) (psize : ℕ) (data : List Char) : List (List Char) :=
  packetizeFuel pad_zeros psize data.length data

/-- Model of `send_one_line(socket, text, pad_zeros)` (lines 27-56): the
sequence of packets written to the socket. -/
def send_one_line (pad_zeros : Bool) (text : List Char) : List (List Char) :=
  packetize pad_zeros PACKET_SIZE (send_data pad_zeros text)

/-- Python `data.strip('\0')`: remove leading and trailing NULs. -/
def stripNul (s : List Char) : List Char :=
  ((s.dropWhile (· == nulChar)).reverse.dropWhile (· == nulChar)).reverse

/-- First element of Python `text.split('\n')`. -/
def splitFirst (s : List Char) : List Char :=
  s.takeWhile (fun c => c != '\n')

/-- Decoding step of `receive_one_line` (lines 86-88): strip NUL padding,
split on newline, return the first line with a trailing newline. -/
def decode_data (data : List Char) : List Char :=
  splitFirst (stripNul data) ++ ['\n']

/-- Accumulation loop of `receive_one_line` (lines 77-84).  `acc` is the
`data` accumulated so far; each list element is one `socket.recv` result.  An
empty packet means the connection was closed, in which case the function
returns `None` (line 81) even if data was already accumulated; the end of the
list models a closed socket, whose reads keep returning empty.  The loop
stops at the first packet containing a NUL byte. -/
def recvLineLoop : List Char → List (List Char) → Option (List Char)
  | _, [] => none
  | acc, p :: rest =>
      if p = [] then none
      else if nulChar ∈ p then some (decode_data (acc ++ p))
      else recvLineLoop (acc ++ p) rest

/-- Model of `receive_one_line(socket)` (lines 59-88) applied to a packet
stream. -/
def receive_one_line (packets : List (List Char)) : Option (List Char) :=
  recvLineLoop [] packets

/-- Constant from `Connection` (line 109): `PACKET_SIZE = 32000*5*60`. -/
def CONN_PACKET_SIZE : ℕ := 32000 * 5 * 60

/-- State of a `Connection` (lines 107-133): the deduplication register
`last_line` and the blocking mode of the wrapped socket. -/
structure Connection where
  last_line : List Char
  blocking : Bool
deriving DecidableEq

/-- Model of `Connection.__init__` (lines 111-115): `last_line = ""` and
`conn.setblocking(True)`. -/
def Connection.init : Connection :=
  { last_line := [], blocking := true }

/-- Model of `Connection.send` (lines 117-122).  The first component lists
the wire transmissions performed (each element is the packet sequence of one
`send_one_line` call); the second is the updated connection.  A line equal to
`last_line` is not sent. -/
def Connection.send (c : Connection) (line : List Char) :
    List (List (List Char)) × Connection :=
  if line = c.last_line then ([], c)
  else ([send_one_line false line], { c with last_line := line })

/-- Two consecutive `send` calls with the same line; first component collects
all wire transmissions of both calls. -/
def Connection.sendTwice (c : Connection) (line : List Char) :
    List (List (List Char)) × Connection :=
  ((Connection.send c line).1 ++ (Connection.send (Connection.send c line).2 line).1,
   (Connection.send (Connection.send c line).2 line).2)

/-- Outcome of one `self.conn.recv(...)` call as seen by
`non_blocking_receive_audio` (lines 128-133): bytes available, an orderly
close (Python `recv` then returns `b''`), or a connection reset (Python
raises `ConnectionResetError`). -/
inductive RecvOutcome where
  | data (b : List ℕ)
  | closed
  | reset
deriving DecidableEq

/-- Model of `Connection.non_blocking_receive_audio` (lines 128-133): a
single `recv` of at most `CONN_PACKET_SIZE` bytes; `ConnectionResetError`
yields `none`; an orderly close yields the empty byte string. -/
def non_blocking_receive_audio : RecvOutcome → Option (List ℕ)
  | RecvOutcome.data b => some (b.take CONN_PACKET_SIZE)
  | RecvOutcome.closed => some []
  | RecvOutcome.reset => none

/-- Per-session state of `ServerProcessor` (lines 140-147): `last_end` is the
last emitted end timestamp in milliseconds (`None` before the first
emission), `is_first` the first-chunk flag of `receive_audio_chunk`. -/
structure SPState where
  last_end : Option ℚ
  is_first : Bool
deriving DecidableEq

/-- Initial `ServerProcessor` state set in `__init__` (lines 145-147):
`last_end = None`, `is_first = True`. -/
def initState : SPState :=
  { last_end := none, is_first := true }

/-- An engine result tuple `o = (beg, end, text)` as consumed by
`format_output_transcript` and `output_transcript`: `o[0]` is `None` when
nothing was recognized in the iteration, and `o[1]` is only read in the
non-`None` branch, so it is modelled as always present.  Timestamps are in
seconds. -/
structure Seg where
  beg : Option ℚ
  en : ℚ
  text : List Char
deriving DecidableEq

/-- Model of `ServerProcessor.format_output_transcript` (lines 173-195).
Returns the emitted triple `(beg_ms, end_ms, text)` (`none` when the segment
has a null start and nothing is emitted) together with the updated session
state.  Mirrors the source exactly: `beg, end = o[0]*1000, o[1]*1000`; if
`last_end` is set, `beg = max(beg, last_end)`; then `last_end = end`.  The
`%1.0f`-style string rendering of the emitted numbers is presentational and
not modelled. -/
def format_output_transcript (st : SPState) (o : Seg) :
    Option (ℚ × ℚ × List Char) × SPState :=
  match o.beg with
  | some b =>
      (some ((match st.last_end with
              | some le => max (b * 1000) le
              | none => b * 1000),
             o.en * 1000, o.text),
       { st with last_end := some (o.en * 1000) })
  | none => (none, st)

/-- Feeds a list of engine segments through `format_output_transcript` in
order, collecting the emitted triples and the final state. -/
def runSegments : SPState → List Seg → List (ℚ × ℚ × List Char) × SPState
  | st, [] => ([], st)
  | st, o :: rest =>
      ((format_output_transcript st o).1.toList ++
        (runSegments (format_output_transcript st o).2 rest).1,
       (runSegments (format_output_transcript st o).2 rest).2)

/-- Accumulation loop of `ServerProcessor.receive_audio_chunk` (lines
153-164).  Each element of `stream` is the sample list decoded from one
`non_blocking_receive_audio` result; an empty element is a falsy read
(`None` after a reset, or `b''` after an orderly close), which breaks the
loop, and the end of the list models a closed connection whose reads keep
coming back empty.  The loop keeps reading while the accumulated sample
count is below `minlimit`. -/
def recvAudioLoop (minlimit : ℚ) : List (List ℤ) → List (List ℤ) → List (List ℤ)
  | [], out => out
  | a :: rest, out =>
      if ((out.map List.length).sum : ℚ) < minlimit then
        (if a = [] then out else recvAudioLoop minlimit rest (out ++ [a]))
      else out

/-- Model of `ServerProcessor.receive_audio_chunk` (lines 149-171), given the
current first-chunk flag.  Returns the accumulated samples (or `none`) and
the updated flag.  `minlimit = min_chunk * SAMPLING_RATE`; an empty `out`
yields `None`; on the first call a buffer shorter than `minlimit` is
discarded and `None` returned with the flag still set; otherwise the flag is
cleared and the concatenation returned. -/
def receive_audio_chunk (min_chunk : ℚ) (is_first : Bool) (stream : List (List ℤ)) :
    Option (List ℤ) × Bool :=
  let minlimit := min_chunk * (SAMPLING_RATE : ℚ)
  let out := recvAudioLoop minlimit stream []
  if out = [] then (none, is_first)
  else if is_first = true ∧ ((out.flatten.length : ℚ) < minlimit) then (none, is_first)
  else (some out.flatten, false)

/-- One engine/connection interaction of the session loop of
`ServerProcessor.process` (lines 202-218), recorded as a trace event. -/
inductive SessionEvent where
  | init
  | insert (a : List ℤ)
  | process_iter
  | send_result (o : Seg)
  | finish
deriving DecidableEq

/-- The `while True` loop body of `ServerProcessor.process` (lines 205-215):
for each successful accumulation, insert the chunk, run one engine
iteration, and send the result; `engine i` is the segment the engine's
`process_iter` returns on its `i`-th call.  The loop breaks when
`receive_audio_chunk` returns `None`, which the end of `chunks` models. -/
def processLoop (engine : ℕ → Seg) : List (List ℤ) → ℕ → List SessionEvent
  | [], _ => []
  | a :: rest, i =>
      SessionEvent.insert a :: SessionEvent.process_iter ::
        SessionEvent.send_result (engine i) :: processLoop engine rest (i + 1)

/-- Model of `ServerProcessor.process` (lines 202-218) as the trace of engine
and connection calls it performs: `online_asr_proc.init()` followed by the
session loop.  The flush step `o = online.finish(); self.send_result(o)`
present at lines 217-218 of the source is commented out there, so the trace
ends when the loop breaks. -/
def process (engine : ℕ → Seg) (chunks : List (List ℤ)) : List SessionEvent :=
  SessionEvent.init :: processLoop engine chunks 0

/-- Model of `whisper_online.output_transcript` (lines 108-124).  When `now`
is `None` the source computes `now = time.time() - start` and then
immediately executes `return None` (line 117), so nothing is printed; with a
provided `now` and a non-null start, the line
`"<emission_ms> <start_ms> <end_ms> <text>"` is printed to stderr and stdout
and returned, modelled as the tuple of its fields. -/
def output_transcript (now : Option ℚ) (o : Seg) : Option (ℚ × ℚ × ℚ × List Char) :=
  match now with
  | none => none
  | some t =>
      match o.beg with
      | some b => some (t * 1000, b * 1000, o.en * 1000, o.text)
      | none => none

/-- Per-segment reporting of the `__main__` offline branch (line 183) and of
the live simultaneous branch (line 226): both call `output_transcript(o)`
with `now` defaulting to `None`; the final flush call after either branch
(line 234) also passes `now=None`.  Only the `comp_unaware` branch (line
196) passes a non-`None` `now`. -/
def offline_output (o : Seg) : Option (ℚ × ℚ × ℚ × List Char) :=
  output_transcript none o

/-! ### Theorems about the claims -/

/-- C2: the encoder is claimed to treat NUL as a line terminator, so that the
transmitted payload never contains an embedded NUL and only the text before
the first NUL is sent.  Evaluating `send_one_line` at the failing input
`"a\x00b"` (with `pad_zeros = False`, the default used by `Connection.send`)
shows the whole string, embedded NUL included, is transmitted: line 43 of
the source discards the result of `text.replace('\0', '\n')`, contradicting
the function's own docstring. -/
theorem C2_nul_payload_eval :
    send_one_line false ['a', nulChar, 'b'] = [['a', nulChar, 'b', '\n']] ∧
    nulChar ∈ ['a', nulChar, 'b', '\n'] := by
  constructor
  · rfl
  · decide

/-- Dropping a prefix of repeated characters that all satisfy the predicate
reduces to dropping from the remainder. -/
theorem dropWhile_replicate_append (p : Char → Bool) (a : Char) (h : p a = true)
    (k : ℕ) (l : List Char) :
    List.dropWhile p (List.replicate k a ++ l) = List.dropWhile p l := by
  induction k with
  | zero => simp
  | succ n ih => simp [List.replicate_succ, List.dropWhile_cons, h, ih]

/-- C3: evaluating the round trip at the failing input `"a\x00b"` (with the
trailing-NUL/padding mode that makes the framing protocol decodable).  The
claim says the decoded line is the input's first line under NUL-to-newline
normalization, i.e. `"a\n"`; the code instead yields `"a\x00b\n"`, with the
embedded NUL and the text after it preserved, because `send_one_line`
discards the result of `text.replace('\0', '\n')` at line 43, contradicting
its own docstring, and `receive_one_line` strips only leading and trailing
NULs. -/
theorem C3_roundtrip_eval :
    receive_one_line (send_one_line true ['a', nulChar, 'b']) =
      some ['a', nulChar, 'b', '\n'] := by
  have hsend : send_one_line true ['a', nulChar, 'b'] =
      [['a', nulChar, 'b', '\n', nulChar] ++ List.replicate 65531 nulChar] := rfl
  have hne : ¬ ((['a', nulChar, 'b', '\n', nulChar] ++ List.replicate 65531 nulChar :
      List Char) = []) :=
    fun h => List.noConfusion
      (show ('a' :: ([nulChar, 'b', '\n', nulChar] ++ List.replicate 65531 nulChar) :
        List Char) = [] from h)
  have hmem : nulChar ∈ (['a', nulChar, 'b', '\n', nulChar] ++
      List.replicate 65531 nulChar : List Char) :=
    List.mem_append.mpr (Or.inl (by decide))
  have hstrip : stripNul (['a', nulChar, 'b', '\n', nulChar] ++
      List.replicate 65531 nulChar) = ['a', nulChar, 'b', '\n'] := by
    have hfalse : (('a' : Char) == nulChar) = false := by decide
    have htrue : ((nulChar : Char) == nulChar) = true := by decide
    simp only [stripNul]
    rw [show (['a', nulChar, 'b', '\n', nulChar] ++ List.replicate 65531 nulChar :
        List Char) = 'a' :: ([nulChar, 'b', '\n', nulChar] ++ List.replicate 65531 nulChar)
        from rfl,
      List.dropWhile_cons, hfalse]
    simp only [Bool.false_eq_true, if_false]
    rw [show ('a' : Char) :: ([nulChar, 'b', '\n', nulChar] ++ List.replicate 65531 nulChar) =
        (['a', nulChar, 'b', '\n'] ++ List.replicate 65532 nulChar : List Char) from rfl,
      List.reverse_append, List.reverse_replicate,
      show (['a', nulChar, 'b', '\n'] : List Char).reverse = ['\n', 'b', nulChar, 'a'] from
        by decide,
      dropWhile_replicate_append (fun x => x == nulChar) nulChar htrue,
      show List.dropWhile (· == nulChar) (['\n', 'b', nulChar, 'a'] : List Char) =
        ['\n', 'b', nulChar, 'a'] from by decide,
      show ((['\n', 'b', nulChar, 'a'] : List Char)).reverse = ['a', nulChar, 'b', '\n'] from
        by decide]
  have hdec : decode_data ([] ++ (['a', nulChar, 'b', '\n', nulChar] ++
      List.replicate 65531 nulChar)) = ['a', nulChar, 'b', '\n'] := by
    rw [List.nil_append]
    simp only [decode_data, hstrip]
    decide
  rw [hsend]
  simp only [receive_one_line, recvLineLoop]
  rw [if_neg hne, if_pos hmem, hdec]

/-- C4 counterexample: on a freshly constructed connection (whose recorded
last-sent line is the empty string) two consecutive `send("")` calls perform
no wire transmission at all, not exactly one transmission of the line as the
claim states for every connection and line. -/
theorem C4_counterexample :
    (Connection.sendTwice Connection.init []).1 ≠ [send_one_line false []] := by
  have h : (Connection.sendTwice Connection.init []).1 = [] := rfl
  rw [h]
  exact fun hc => List.noConfusion hc

/-- C4 (amended): if the line differs from the connection's recorded
last-sent line, then calling `send(L)` twice in succession produces exactly
one wire transmission of `L`: the first call transmits `L` and records it as
last-sent, and the second call is a no-op because `L` now equals the
recorded last-sent line. -/
theorem C4_dedup_idempotence (c : Connection) (L : List Char)
    (h : L ≠ c.last_line) :
    Connection.send c L = ([send_one_line false L], ⟨L, c.blocking⟩) ∧
    Connection.send ⟨L, c.blocking⟩ L = ([], ⟨L, c.blocking⟩) ∧
    (Connection.sendTwice c L).1 = [send_one_line false L] := by
  have h1 : Connection.send c L = ([send_one_line false L], ⟨L, c.blocking⟩) := by
    simp only [Connection.send, if_neg h]
  have h2 : Connection.send ⟨L, c.blocking⟩ L = ([], ⟨L, c.blocking⟩) := by
    simp [Connection.send]
  refine ⟨h1, h2, ?_⟩
  simp only [Connection.sendTwice, h1, h2, List.append_nil]

/-- C4 witness: a fresh connection and the nonempty line `"x"`. -/
theorem C4_dedup_idempotence_witness :
    (['x'] ≠ Connection.init.last_line) ∧
    (Connection.send Connection.init ['x'] =
        ([send_one_line false ['x']], ⟨['x'], Connection.init.blocking⟩) ∧
      Connection.send ⟨['x'], Connection.init.blocking⟩ ['x'] =
        ([], ⟨['x'], Connection.init.blocking⟩) ∧
      (Connection.sendTwice Connection.init ['x']).1 = [send_one_line false ['x']]) :=
  ⟨by decide, C4_dedup_idempotence Connection.init ['x'] (by decide)⟩

/-- C9 counterexample: on an orderly close of the peer, `recv` returns the
empty byte string and `non_blocking_receive_audio` passes it through; it
does not return `null` as the claim states for a closed connection (only a
`ConnectionResetError` yields `null`). -/
theorem C9_counterexample :
    non_blocking_receive_audio RecvOutcome.closed ≠ none := by
  intro h
  exact Option.noConfusion h

/-- C9 (amended): `non_blocking_receive_audio` performs a single bounded read
of at most `Connection.PACKET_SIZE` raw bytes on a socket that `__init__`
has placed in blocking mode (so the read may in fact block); it returns the
bytes read — the empty byte string when the peer closed the connection in an
orderly way — and returns `null` exactly when the peer reset the
connection. -/
theorem C9_bounded_read :
    Connection.init.blocking = true ∧
    (∀ o : RecvOutcome, non_blocking_receive_audio o = none ↔ o = RecvOutcome.reset) ∧
    non_blocking_receive_audio RecvOutcome.closed = some [] ∧
    (∀ b : List ℕ,
      non_blocking_receive_audio (RecvOutcome.data b) = some (b.take CONN_PACKET_SIZE) ∧
      (b.take CONN_PACKET_SIZE).length ≤ CONN_PACKET_SIZE) := by
  refine ⟨rfl, ?_, rfl, ?_⟩
  · intro o
    cases o <;> simp [non_blocking_receive_audio]
  · intro b
    refine ⟨rfl, ?_⟩
    simp

/-- Invariant of the stitched emission stream, proved by induction along the
segment list: the emitted triples are chained by `end ≤ next start`, the
first emitted start is at least any `last_end` recorded in the entry state,
and every non-null segment emits exactly one triple. -/
theorem runSegments_chain (segs : List Seg) :
    ∀ st : SPState, (∀ s ∈ segs, s.beg ≠ none) →
      List.Chain' (fun p q : ℚ × ℚ × List Char => p.2.1 ≤ q.1) (runSegments st segs).1 ∧
      (∀ (e : ℚ) (p : ℚ × ℚ × List Char),
        st.last_end = some e → (runSegments st segs).1.head? = some p → e ≤ p.1) ∧
      (runSegments st segs).1.length = segs.length := by
  induction segs with
  | nil =>
      intro st _
      refine ⟨by simp [runSegments], ?_, by simp [runSegments]⟩
      intro e p _ hp
      simp [runSegments] at hp
  | cons o rest ih =>
      intro st h
      obtain ⟨b, hb⟩ : ∃ b, o.beg = some b := by
        cases hbeg : o.beg with
        | none => exact absurd hbeg (h o (by simp))
        | some b => exact ⟨b, rfl⟩
      have hf : format_output_transcript st o =
          (some ((match st.last_end with
                  | some le => max (b * 1000) le
                  | none => b * 1000), o.en * 1000, o.text),
           { st with last_end := some (o.en * 1000) }) := by
        simp [format_output_transcript, hb]
      have hrest := ih { st with last_end := some (o.en * 1000) }
        (fun s hs => h s (List.mem_cons_of_mem o hs))
      have hout : (runSegments st (o :: rest)).1 =
          ((match st.last_end with
            | some le => max (b * 1000) le
            | none => b * 1000), o.en * 1000, o.text) ::
          (runSegments { st with last_end := some (o.en * 1000) } rest).1 := by
        simp [runSegments, hf]
      refine ⟨?_, ?_, ?_⟩
      · rw [hout, List.chain'_cons']
        refine ⟨?_, hrest.1⟩
        intro q hq
        exact hrest.2.1 (o.en * 1000) q rfl hq
      · intro e p he hp
        rw [hout] at hp
        simp only [List.head?_cons, Option.some_inj] at hp
        subst hp
        simp only [he]
        exact le_max_right _ _
      · rw [hout]
        simp [hrest.2.2]

/-- C1: for every sequence of non-null-start segments fed through
`format_output_transcript`, each call emits a triple whose start is the
engine start clamped to `max` with the stored `last_end` (taken as-is when
`last_end` is still `None`), and stores the segment's end as the new
`last_end`; consequently the emitted sequence from a fresh session satisfies
`emitted_start_i ≥ emitted_end_(i-1)` for every `i > 1`, one triple per
segment, regardless of how the engine's timestamps regress or overlap. -/
theorem C1_monotonic_stitching (segs : List Seg) (st : SPState) (o : Seg) (b : ℚ)
    (hall : segs.all (fun s => s.beg.isSome) = true) (hb : o.beg = some b) :
    format_output_transcript st o =
      (some ((match st.last_end with
              | some le => max (b * 1000) le
              | none => b * 1000), o.en * 1000, o.text),
       { st with last_end := some (o.en * 1000) }) ∧
    List.Chain' (fun p q : ℚ × ℚ × List Char => p.2.1 ≤ q.1)
      (runSegments initState segs).1 ∧
    (runSegments initState segs).1.length = segs.length := by
  have hall' : ∀ s ∈ segs, s.beg ≠ none := by
    intro s hs
    have := List.all_eq_true.mp hall s hs
    simp only [Option.isSome_iff_exists] at this
    obtain ⟨x, hx⟩ := this
    simp [hx]
  have hchain := runSegments_chain segs initState hall'
  refine ⟨by simp [format_output_transcript, hb], hchain.1, hchain.2.2⟩

/-- C1 witness: two segments whose raw timestamps regress (the second starts
at 0 s although the first ended at 1 s), fed from a fresh session state, and
one direct call on a state that already recorded `last_end = 7`. -/
theorem C1_monotonic_stitching_witness :
    (([⟨some 2, 1, []⟩, ⟨some 0, 3, []⟩] : List Seg).all
        (fun s => s.beg.isSome) = true) ∧
    (format_output_transcript ⟨some 7, false⟩ ⟨some 3, 4, ['t']⟩ =
        (some (max (3 * 1000) 7, (4 : ℚ) * 1000, ['t']), ⟨some ((4 : ℚ) * 1000), false⟩) ∧
      List.Chain' (fun p q : ℚ × ℚ × List Char => p.2.1 ≤ q.1)
        (runSegments initState [⟨some 2, 1, []⟩, ⟨some 0, 3, []⟩]).1 ∧
      (runSegments initState [⟨some 2, 1, []⟩, ⟨some 0, 3, []⟩]).1.length =
        ([⟨some 2, 1, []⟩, ⟨some 0, 3, []⟩] : List Seg).length) :=
  ⟨by decide,
   C1_monotonic_stitching [⟨some 2, 1, []⟩, ⟨some 0, 3, []⟩]
     ⟨some 7, false⟩ ⟨some 3, 4, ['t']⟩ 3 (by decide) rfl⟩

/-- C8: a null-start segment makes `format_output_transcript` return `null`
and leave the whole session state — both `last_end` and the first-chunk flag
— unchanged; moreover the flag is never touched by this function, and
`last_end` changes only on a non-null start (where it becomes the segment's
end in milliseconds). -/
theorem C8_null_start_frame (st st2 : SPState) (o o2 : Seg) (h : o.beg = none) :
    format_output_transcript st o = (none, st) ∧
    (format_output_transcript st2 o2).2.is_first = st2.is_first ∧
    (format_output_transcript st2 o2).2.last_end =
      (match o2.beg with
       | none => st2.last_end
       | some _ => some (o2.en * 1000)) := by
  refine ⟨by simp [format_output_transcript, h], ?_, ?_⟩ <;>
    cases h2 : o2.beg <;> simp [format_output_transcript, h2]

/-- C8 witness: a null-start segment against a state with recorded
`last_end`, and a non-null segment showing the `last_end` update. -/
theorem C8_null_start_frame_witness :
    ((⟨none, 5, []⟩ : Seg).beg = none) ∧
    (format_output_transcript ⟨some 3, false⟩ ⟨none, 5, []⟩ = (none, ⟨some 3, false⟩) ∧
      (format_output_transcript ⟨none, true⟩ ⟨some 1, 2, []⟩).2.is_first = true ∧
      (format_output_transcript ⟨none, true⟩ ⟨some 1, 2, []⟩).2.last_end =
        some ((2 : ℚ) * 1000)) :=
  ⟨rfl, C8_null_start_frame ⟨some 3, false⟩ ⟨none, true⟩ ⟨none, 5, []⟩ ⟨some 1, 2, []⟩ rfl⟩

/-- C5: full characterization of `receive_audio_chunk` for both values of the
first-chunk flag.  On the very first accumulation (`is_first = true`), if
the connection closes (or a read yields nothing) before
`min_chunk * SAMPLING_RATE` samples are collected, the partial buffer is
discarded and `None` returned with the flag still set; a full accumulation
returns the buffer and clears the flag.  On a later call
(`is_first = false`), a close with a non-empty partial buffer returns that
partial buffer, and `None` is returned exactly when no samples at all were
collected before the close. -/
theorem C5_first_chunk_policy (min_chunk : ℚ) (stream : List (List ℤ)) :
    (receive_audio_chunk min_chunk true stream =
      if recvAudioLoop (min_chunk * (SAMPLING_RATE : ℚ)) stream [] = [] ∨
          (((recvAudioLoop (min_chunk * (SAMPLING_RATE : ℚ)) stream []).flatten.length : ℚ) <
            min_chunk * (SAMPLING_RATE : ℚ)) then
        (none, true)
      else
        (some (recvAudioLoop (min_chunk * (SAMPLING_RATE : ℚ)) stream []).flatten, false)) ∧
    (receive_audio_chunk min_chunk false stream =
      if recvAudioLoop (min_chunk * (SAMPLING_RATE : ℚ)) stream [] = [] then
        (none, false)
      else
        (some (recvAudioLoop (min_chunk * (SAMPLING_RATE : ℚ)) stream []).flatten, false)) := by
  constructor
  · by_cases hout : recvAudioLoop (min_chunk * (SAMPLING_RATE : ℚ)) stream [] = []
    · simp [receive_audio_chunk, hout]
    · by_cases hlen : (((recvAudioLoop (min_chunk * (SAMPLING_RATE : ℚ)) stream []).flatten.length : ℚ) <
          min_chunk * (SAMPLING_RATE : ℚ))
      · simp [receive_audio_chunk, hout, hlen]
      · simp [receive_audio_chunk, hout, hlen]
  · by_cases hout : recvAudioLoop (min_chunk * (SAMPLING_RATE : ℚ)) stream [] = []
    · simp [receive_audio_chunk, hout]
    · simp [receive_audio_chunk, hout]

/-- C6 counterexample: for a concrete session (one successful chunk, then
the accumulator reports end-of-audio) the trace of `ServerProcessor.process`
contains no `finish` call at all — not exactly one flush-and-emit as the
claim states: the `o = online.finish(); self.send_result(o)` step at lines
217-218 is commented out in the source. -/
theorem C6_counterexample :
    ¬ ((process (fun _ => ⟨some 0, 1, []⟩) [[0]]).count SessionEvent.finish = 1) := by
  decide

/-- C6 (amended): when `receive_audio_chunk` returns `null` the session loop
exits and the session ends immediately: the engine's `finish()` is never
called (and hence no further stitching or emission happens), for every
engine and every sequence of accumulated chunks. -/
theorem C6_no_finish_on_session_end (engine : ℕ → Seg) (chunks : List (List ℤ)) :
    SessionEvent.finish ∉ process engine chunks := by
  have hloop : ∀ (l : List (List ℤ)) (i : ℕ),
      SessionEvent.finish ∉ processLoop engine l i := by
    intro l
    induction l with
    | nil => intro i; simp [processLoop]
    | cons a rest ih =>
        intro i
        simp only [processLoop, List.mem_cons]
        push_neg
        exact ⟨by simp, by simp, by simp, ih (i + 1)⟩
  simp only [process, List.mem_cons]
  push_neg
  exact ⟨by simp, hloop chunks 0⟩

/-- C7: evaluating `output_transcript` as the offline branch calls it (line
183, `output_transcript(o)`, with `now` defaulting to `None` — the live
branch at line 226 and the final flush at line 234 do the same) on a segment
with non-null start prints nothing and returns `None`, because line 117
executes `return None` right after computing `now`; only when a `now` value
is passed (the `comp_unaware` branch, line 196) is the four-column
`"<emission_ms> <start_ms> <end_ms> <text>"` line produced. -/
theorem C7_offline_no_output_eval :
    offline_output ⟨some 0, 1, ['h', 'i']⟩ = none ∧
    output_transcript none ⟨some 0, 1, ['h', 'i']⟩ = none ∧
    output_transcript (some 2) ⟨some 0, 1, ['h', 'i']⟩ =
      some ((2 : ℚ) * 1000, (0 : ℚ) * 1000, (1 : ℚ) * 1000, ['h', 'i']) := by
  exact ⟨rfl, rfl, rfl⟩

/-- C10: a freshly constructed `Connection` records the empty string as its
last-sent line, so the very first `send("")` on it transmits nothing — the
empty line is suppressed as a duplicate even though nothing was ever sent. -/
theorem C10_fresh_connection_empty_send :
    Connection.init.last_line = [] ∧
    Connection.send Connection.init [] = ([], Connection.init) := by
  refine ⟨rfl, ?_⟩
  simp [Connection.send, Connection.init]

end WhisperStreaming
